import Mathlib

/-!
Verification of the Nanoverse Battery simulation kernel (models.py / game.py).

Shallow embedding conventions:
* Python floats are modelled as `ℚ` (exact arithmetic).
* Python dicts keyed by integer id are modelled as association lists
  `List (ℕ × _)` in insertion order (Python dicts preserve insertion order);
  the `cells` dict is keyed by `cell_number` which is always `1..n` in order,
  so it is modelled as a plain `List Cell`.
* Methods that mutate `self` and return a `bool` are modelled as functions
  returning `Bool × State`.
* Presentational fields (names, sprites, animation, selection) are omitted;
  all fields read or written by the simulation logic are kept.
-/

set_option maxHeartbeats 1000000

namespace NB

/-- Configuration constants from config.py. -/
def WINDOW_WIDTH : ℤ := 1200

def WINDOW_HEIGHT : ℤ := 800

def UI_PANEL_WIDTH : ℤ := 300

def INFO_PANEL_WIDTH : ℤ := 250

def TIME_BAR_HEIGHT : ℤ := 50

def STATUS_BAR_HEIGHT : ℤ := 80

def PLAY_AREA_WIDTH : ℤ := WINDOW_WIDTH - UI_PANEL_WIDTH - INFO_PANEL_WIDTH - 30

def PLAY_AREA_HEIGHT : ℤ := WINDOW_HEIGHT - TIME_BAR_HEIGHT - STATUS_BAR_HEIGHT - 20

def GRID_SIZE : ℤ := 32

/-- BuildingType enum from models.py. -/
inductive BuildingType where
  | cell
  | bio
  | tent
  | study
  | music
  | camp
deriving DecidableEq

/-- NanoState enum from models.py. -/
inductive NanoState where
  | idle
  | working
  | sleeping
  | learning
  | training
  | moving
  | happy_time
deriving DecidableEq

/-- Resource from models.py (the Economy: surge capacitor, credits, sell rate). -/
structure Resource where
  eu : ℚ
  credits : ℚ
  know : ℚ
  milint : ℚ
  surge_capacitor : ℚ
  work_power : ℚ
  sell_rate : ℚ
  sell_floor : ℚ
deriving DecidableEq

/-- Resource.__init__ defaults. -/
def Resource.init : Resource :=
  { eu := 0, credits := 1000, know := 0, milint := 0,
    surge_capacitor := 0, work_power := 1/10, sell_rate := 1000, sell_floor := 10 }

/-- Resource.add_eu. -/
def Resource.add_eu (r : Resource) (amount : ℚ) : Resource :=
  { r with surge_capacitor := r.surge_capacitor + amount }

/-- Resource.drain_eu: drain from the surge capacitor, Bool result is success. -/
def Resource.drain_eu (r : Resource) (amount : ℚ) : Bool × Resource :=
  if amount ≤ r.surge_capacitor then
    (true, { r with surge_capacitor := r.surge_capacitor - amount })
  else (false, r)

/-- Resource.sell_eu: sell from the surge capacitor; the credits use the
sell_rate in effect before the decay assignment, as in the source where
credits_earned is computed before sell_rate is reassigned. -/
def Resource.sell_eu (r : Resource) (amount : ℚ) : Bool × Resource :=
  if amount ≤ r.surge_capacitor then
    (true, { r with surge_capacitor := r.surge_capacitor - amount,
                    credits := r.credits + amount * r.sell_rate,
                    sell_rate := max (r.sell_rate * (9/10)) r.sell_floor })
  else (false, r)

/-- Resource.spend_credits. -/
def Resource.spend_credits (r : Resource) (amount : ℚ) : Bool × Resource :=
  if amount ≤ r.credits then (true, { r with credits := r.credits - amount })
  else (false, r)

/-- Resource.dissipate_energy: passive bleed only when no cells exist. -/
def Resource.dissipate_energy (r : Resource) (cells_count : ℕ) (dt : ℚ) : Resource :=
  if cells_count = 0 then
    let dissipation_rate :=
      if r.surge_capacitor ≤ 3/2 then (1/1000) * dt
      else r.surge_capacitor * (5/1000) * dt
    { r with surge_capacitor := max 0 (r.surge_capacitor - dissipation_rate) }
  else r

/-- Cell from models.py. -/
structure Cell where
  cell_number : ℕ
  x : ℤ
  y : ℤ
  level : ℕ
  active : Bool
  stored_energy : ℚ
deriving DecidableEq

/-- Cell.__init__. -/
def Cell.mkNew (cell_number : ℕ) (x y : ℤ) : Cell :=
  { cell_number := cell_number, x := x, y := y, level := 1, active := true,
    stored_energy := 0 }

/-- Cell.get_purchase_cost: (EU cost, credit cost). -/
def Cell.get_purchase_cost (c : Cell) : ℚ × ℚ :=
  ((c.cell_number : ℚ), 100)

/-- Cell.get_upgrade_cost: (EU cost, credit cost). -/
def Cell.get_upgrade_cost (c : Cell) : ℚ × ℚ :=
  ((c.cell_number * c.level : ℕ) , ((c.cell_number * c.level : ℕ) : ℚ) * 100)

/-- Building from models.py.  The workers field is the occupant list of Nano ids. -/
structure Building where
  type : BuildingType
  x : ℤ
  y : ℤ
  level : ℕ
  occupied : Bool
  workers : List ℕ
  capacity : ℕ
  building_id : Option ℕ
deriving DecidableEq

/-- Building.get_capacity: the per-type capacities dict, default 1. -/
def BuildingType.get_capacity : BuildingType → ℕ
  | .bio => 1
  | .tent => 2
  | .study => 3
  | .music => 5
  | .camp => 4
  | .cell => 1

/-- Building.__init__: capacity is fixed from the type at construction. -/
def Building.mkNew (building_type : BuildingType) (x y : ℤ) : Building :=
  { type := building_type, x := x, y := y, level := 1, occupied := false,
    workers := [], capacity := building_type.get_capacity, building_id := none }

/-- Building.get_build_cost: (EU cost, credit cost) per type. -/
def Building.get_build_cost (b : Building) : ℚ × ℚ :=
  match b.type with
  | .cell => (1, 100)
  | .bio => (10, 1000)
  | .tent => (10, 100)
  | .study => (10, 100)
  | .music => (10, 500)
  | .camp => (10, 250)

/-- Building.can_accept_worker. -/
def Building.can_accept_worker (b : Building) : Bool :=
  decide (b.workers.length < b.capacity)

/-- Building.add_worker: append only when under capacity and not already present. -/
def Building.add_worker (b : Building) (nano_id : ℕ) : Bool × Building :=
  if b.can_accept_worker = true ∧ nano_id ∉ b.workers then
    (true, { b with workers := b.workers ++ [nano_id] })
  else (false, b)

/-- Building.remove_worker: remove the first occurrence when present. -/
def Building.remove_worker (b : Building) (nano_id : ℕ) : Bool × Building :=
  if nano_id ∈ b.workers then (true, { b with workers := b.workers.erase nano_id })
  else (false, b)

/-- Nano from models.py; the skills dict becomes three fields, presentational
fields (name, animation, selection, path flags) are omitted. -/
structure Nano where
  id : ℕ
  level : ℕ
  age : ℕ
  max_lifespan : ℕ
  skill_worker : ℚ
  skill_brainer : ℚ
  skill_fixer : ℚ
  speed : ℚ
  wage : ℚ
  happy : ℚ
  health : ℚ
  brain : ℚ
  force : ℚ
  x : ℚ
  y : ℚ
  target_x : ℚ
  target_y : ℚ
  moving : Bool
  state : NanoState
  assigned_building : Option ℕ
  home_building : Option ℕ
  current_building : Option ℕ
  meals_today : ℕ
  inside_building : Bool
  activity_timer : ℚ
  activity_duration : ℚ
  hours_without_food : ℕ
  hours_homeless : ℕ
deriving DecidableEq

/-- Base Nano with the deterministic constructor defaults of Nano.__init__
(the randomized fields age, max_lifespan and speed are left at representative
values and are overridden per instance below). -/
def Nano.base : Nano :=
  { id := 0, level := 1, age := 18, max_lifespan := 60,
    skill_worker := 1, skill_brainer := 1, skill_fixer := 1,
    speed := 100, wage := 10, happy := 100, health := 100, brain := 10, force := 10,
    x := 0, y := 0, target_x := 0, target_y := 0, moving := false,
    state := NanoState.idle, assigned_building := none, home_building := none,
    current_building := none, meals_today := 0, inside_building := false,
    activity_timer := 0, activity_duration := 0,
    hours_without_food := 0, hours_homeless := 0 }

/-- Nano.is_dead: death by old age or by health. -/
def Nano.is_dead (n : Nano) : Bool :=
  decide (n.max_lifespan ≤ n.age) || decide (n.health ≤ 0)

/-- Nano.work: BIO generators produce 1 EU per hour per worker, scaled by the
worker skill. -/
def Nano.work (n : Nano) (building : Building) : ℚ :=
  if building.type = BuildingType.bio then
    let efficiency := n.skill_worker / 10
    1 * efficiency
  else 0

/-- GameState from models.py restricted to the simulation data the claims are
about; cells is the cell dict in key order 1..n, buildings and nanos are the
id-keyed dicts in insertion order. -/
structure GameState where
  resources : Resource
  cells : List Cell
  buildings : List (ℕ × Building)
  nanos : List (ℕ × Nano)
  next_building_id : ℕ
  next_nano_id : ℕ
deriving DecidableEq

/-- GameState.get_total_system_capacity: sum of all cell levels. -/
def GameState.get_total_system_capacity (s : GameState) : ℚ :=
  (s.cells.map (fun c => (c.level : ℚ))).sum

/-- GameState.get_total_cell_energy: sum of all stored_energy. -/
def GameState.get_total_cell_energy (s : GameState) : ℚ :=
  (s.cells.map Cell.stored_energy).sum

/-- GameState.get_total_system_energy: surge capacitor plus all cell stores. -/
def GameState.get_total_system_energy (s : GameState) : ℚ :=
  s.resources.surge_capacitor + (s.cells.map Cell.stored_energy).sum

/-- The in-order drain loop of GameState.drain_cell_energy: walk the cells,
draining min(cell energy, remaining) from each cell with positive energy,
stopping once the remaining amount is ≤ 0; returns the drained cells and the
remaining amount. -/
def drainLoop : ℚ → List Cell → List Cell × ℚ
  | remaining, [] => ([], remaining)
  | remaining, c :: cs =>
    if remaining ≤ 0 then (c :: cs, remaining)
    else if 0 < c.stored_energy then
      let drain_from_cell := min c.stored_energy remaining
      let p := drainLoop (remaining - drain_from_cell) cs
      ({ c with stored_energy := c.stored_energy - drain_from_cell } :: p.1, p.2)
    else
      let p := drainLoop remaining cs
      (c :: p.1, p.2)

/-- GameState.drain_cell_energy: fail (no change) when no cells or total
available below the amount, otherwise drain in order; the Bool result is the
source's check that the leftover is at most 0.001. -/
def GameState.drain_cell_energy (s : GameState) (amount : ℚ) : Bool × GameState :=
  if s.cells.length = 0 then (false, s)
  else if s.get_total_cell_energy < amount then (false, s)
  else
    let p := drainLoop amount s.cells
    (decide (p.2 ≤ 1/1000), { s with cells := p.1 })

/-- GameState.sell_cell_energy: drain from cells, then credit
amount × (rate before decay) and decay the sell rate, exactly as the source
stores current_rate before reassigning sell_rate. -/
def GameState.sell_cell_energy (s : GameState) (amount : ℚ) : Bool × GameState :=
  let p := s.drain_cell_energy amount
  if p.1 = true then
    let s1 := p.2
    let current_rate := s1.resources.sell_rate
    (true, { s1 with resources :=
      { s1.resources with
        credits := s1.resources.credits + amount * current_rate,
        sell_rate := max (s1.resources.sell_rate * (9/10)) s1.resources.sell_floor } })
  else (false, p.2)

/-- The shared dual-cost payment step of build_cell, upgrade_cell and
build_building: drain the EU cost from cells when cells exist, else from the
surge capacitor; then spend the credit cost; returns
(can_afford_eu, can_afford_credits, state after both attempts). -/
def GameState.pay_dual_cost (s : GameState) (cost_eu cost_credits : ℚ) :
    Bool × Bool × GameState :=
  let has_cells := decide (0 < s.cells.length)
  let pe :=
    if has_cells = true then s.drain_cell_energy cost_eu
    else
      let q := s.resources.drain_eu cost_eu
      (q.1, { s with resources := q.2 })
  let qc := pe.2.resources.spend_credits cost_credits
  (pe.1, qc.1, { pe.2 with resources := qc.2 })

/-- The rollback branch shared by build_cell, upgrade_cell and build_building:
the source refunds only the credits when only the credit charge succeeded; a
successfully drained EU cost is never refunded. -/
def GameState.refund_if_credits_only (s : GameState) (can_afford_credits : Bool)
    (cost_credits : ℚ) : GameState :=
  if can_afford_credits = true then
    { s with resources :=
      { s.resources with credits := s.resources.credits + cost_credits } }
  else s

/-- GameState.build_cell: purchase the next sequential cell at (x, y). -/
def GameState.build_cell (s : GameState) (x y : ℤ) : Bool × GameState :=
  let next_cell_number := s.cells.length + 1
  if 100 < next_cell_number then (false, s)
  else
    let temp_cell := Cell.mkNew next_cell_number x y
    let cost := temp_cell.get_purchase_cost
    let p := s.pay_dual_cost cost.1 cost.2
    if p.1 = true ∧ p.2.1 = true then
      (true, { p.2.2 with cells := p.2.2.cells ++ [Cell.mkNew next_cell_number x y] })
    else
      (false, p.2.2.refund_if_credits_only p.2.1 cost.2)

/-- GameState.upgrade_cell: upgrade the cell with the given number; the cells
dict lookup becomes a find on cell_number. -/
def GameState.upgrade_cell (s : GameState) (cell_number : ℕ) : Bool × GameState :=
  match s.cells.find? (fun c => c.cell_number == cell_number) with
  | none => (false, s)
  | some cell =>
    if 100 ≤ cell.level then (false, s)
    else
      let cost := cell.get_upgrade_cost
      let p := s.pay_dual_cost cost.1 cost.2
      if p.1 = true ∧ p.2.1 = true then
        (true, { p.2.2 with cells := p.2.2.cells.map (fun c =>
          if c.cell_number == cell_number then { c with level := c.level + 1 } else c) })
      else
        (false, p.2.2.refund_if_credits_only p.2.1 cost.2)

/-- GameState.build_building: place a new building at (x, y); note the source
performs no occupancy check here — only the dual cost gate. -/
def GameState.build_building (s : GameState) (building_type : BuildingType)
    (x y : ℤ) : Bool × GameState :=
  let building := Building.mkNew building_type x y
  let cost := building.get_build_cost
  let p := s.pay_dual_cost cost.1 cost.2
  if p.1 = true ∧ p.2.1 = true then
    (true, { p.2.2 with
      buildings := p.2.2.buildings ++
        [(p.2.2.next_building_id, { building with building_id := some p.2.2.next_building_id })],
      next_building_id := p.2.2.next_building_id + 1 })
  else
    (false, p.2.2.refund_if_credits_only p.2.1 cost.2)

/-- GameState.work_button_pressed: manual work; with cells the surge capacitor
is capped at total cell capacity, without cells at the fixed 1.5 ceiling. -/
def GameState.work_button_pressed (s : GameState) : GameState :=
  if 0 < s.cells.length then
    let total_capacity := s.get_total_system_capacity
    let current_surge_energy := s.resources.surge_capacitor
    if current_surge_energy < total_capacity then
      let energy_to_add := min s.resources.work_power (total_capacity - current_surge_energy)
      if 0 < energy_to_add then { s with resources := s.resources.add_eu energy_to_add }
      else s
    else s
  else
    if s.resources.surge_capacitor < 3/2 then
      let energy_to_add := min s.resources.work_power (3/2 - s.resources.surge_capacitor)
      if 0 < energy_to_add then { s with resources := s.resources.add_eu energy_to_add }
      else s
    else s

/-- GameState.distribute_energy_to_cells: BIO production is injected into the
surge capacitor through the same capped admission rule. -/
def GameState.distribute_energy_to_cells (s : GameState) (energy_amount : ℚ) : GameState :=
  if energy_amount ≤ 0 then s
  else if s.cells.length = 0 then
    if s.resources.surge_capacitor < 3/2 then
      let energy_to_add := min energy_amount (3/2 - s.resources.surge_capacitor)
      if 0 < energy_to_add then { s with resources := s.resources.add_eu energy_to_add }
      else s
    else s
  else
    let total_capacity := s.get_total_system_capacity
    let current_surge_energy := s.resources.surge_capacitor
    if current_surge_energy < total_capacity then
      let energy_to_add := min energy_amount (total_capacity - current_surge_energy)
      if 0 < energy_to_add then { s with resources := s.resources.add_eu energy_to_add }
      else s
    else s

/-- The per-cell admission test of the transfer step: active and below its
own capacity. -/
def Cell.needs_energy (c : Cell) : Bool :=
  c.active && decide (c.stored_energy < (c.level : ℚ))

/-- How much the transfer step adds to one cell given the even share:
min(share, remaining space) for a cell that needs energy, 0 otherwise. -/
def cellAddition (energy_per_cell : ℚ) (c : Cell) : ℚ :=
  if c.needs_energy = true then min energy_per_cell ((c.level : ℚ) - c.stored_energy)
  else 0

/-- Inner body of the transfer step once the transferable amount is fixed:
split it evenly across the cells needing energy, each capped at its remaining
space, and remove the total actually moved from the surge capacitor. -/
def transferMain (surge : ℚ) (cells : List Cell) (energy_to_transfer : ℚ) :
    ℚ × List Cell :=
  if 0 < (cells.filter Cell.needs_energy).length then
    let energy_per_cell :=
      energy_to_transfer / ((cells.filter Cell.needs_energy).length : ℚ)
    let total_transferred := (cells.map (cellAddition energy_per_cell)).sum
    (surge - total_transferred,
     cells.map (fun c =>
       { c with stored_energy := c.stored_energy + cellAddition energy_per_cell c }))
  else (surge, cells)

/-- The surge-capacitor → cells transfer step of update_energy_system:
rate-limited to 0.5·dt, then distributed by transferMain. -/
def transferStep (surge : ℚ) (cells : List Cell) (dt : ℚ) : ℚ × List Cell :=
  if 0 < surge ∧ 0 < cells.length then
    let transfer_rate := (1/2) * dt
    let energy_to_transfer := min surge transfer_rate
    if 0 < energy_to_transfer then transferMain surge cells energy_to_transfer
    else (surge, cells)
  else (surge, cells)

/-- The fast overcapacity bleed of update_energy_system: 90% of the excess
per second, clamped so the cell never drops below its capacity. -/
def overflowStep (dt : ℚ) (c : Cell) : Cell :=
  if (c.level : ℚ) < c.stored_energy then
    let excess := c.stored_energy - (c.level : ℚ)
    let bleed_rate := excess * (9/10) * dt
    { c with stored_energy := max ((c.level : ℚ)) (c.stored_energy - bleed_rate) }
  else c

/-- The BIO production loop of update_energy_system: each working occupant of
a BIO building produces work·dt/3600 EU, injected via
distribute_energy_to_cells. -/
def GameState.bio_production_step (s : GameState) (dt : ℚ) : GameState :=
  s.buildings.foldl (fun acc p =>
    if p.2.type = BuildingType.bio then
      p.2.workers.foldl (fun acc2 nano_id =>
        match acc2.nanos.find? (fun q => q.1 == nano_id) with
        | some q =>
          if q.2.state = NanoState.working ∧ q.2.inside_building = true then
            let eu_produced := q.2.work p.2 * dt / 3600
            if 0 < eu_produced then acc2.distribute_energy_to_cells eu_produced else acc2
          else acc2
        | none => acc2) acc
    else acc) s

/-- GameState.update_energy_system: dissipation, then the transfer step, then
the overcapacity bleed, then BIO production, in source order. -/
def GameState.update_energy_system (s : GameState) (dt : ℚ) : GameState :=
  let r1 := s.resources.dissipate_energy s.cells.length dt
  let p := transferStep r1.surge_capacitor s.cells dt
  let s1 : GameState :=
    { s with resources := { r1 with surge_capacitor := p.1 },
             cells := p.2.map (overflowStep dt) }
  s1.bio_production_step dt

/-- The death sweep of Game.update: every nano whose health is ≤ 0 at the
check is deleted from the nanos dict and its id removed (first occurrence)
from every building's workers list. -/
def death_sweep (nanos : List (ℕ × Nano)) (buildings : List (ℕ × Building)) :
    List (ℕ × Nano) × List (ℕ × Building) :=
  let dead_ids := (nanos.filter (fun p => decide (p.2.health ≤ 0))).map Prod.fst
  (nanos.filter (fun p => decide (p.1 ∉ dead_ids)),
   buildings.map (fun p =>
     (p.1, { p.2 with workers := dead_ids.foldl (fun ws i => ws.erase i) p.2.workers })))

/-- Nano.enter_building: look the building up by id, attempt add_worker, and
only on success bind current_building and inside_building; the source never
checks whether the nano already occupies another building. -/
def Nano.enter_building (n : Nano) (building_id : ℕ)
    (buildings : List (ℕ × Building)) : Bool × Nano × List (ℕ × Building) :=
  match buildings.find? (fun p => p.1 == building_id) with
  | some pb =>
    let q := pb.2.add_worker n.id
    let buildings' := buildings.map (fun p => if p.1 == building_id then (p.1, q.2) else p)
    if q.1 = true then
      (true, { n with current_building := some building_id, inside_building := true },
       buildings')
    else (false, n, buildings')
  | none => (false, n, buildings)

/-- Game.is_valid_build_position: in bounds and not occupied by a building or
a cell; the source uses this only to colour the build preview. -/
def GameState.is_valid_build_position (s : GameState) (grid_x grid_y : ℤ) : Bool :=
  if grid_x < 0 ∨ grid_y < 0 then false
  else if PLAY_AREA_WIDTH / GRID_SIZE ≤ grid_x ∨ PLAY_AREA_HEIGHT / GRID_SIZE ≤ grid_y then
    false
  else if s.buildings.any (fun p => p.2.x == grid_x && p.2.y == grid_y) then false
  else if s.cells.any (fun c => c.x == grid_x && c.y == grid_y) then false
  else true

/-- Iterated WORK button presses with no time passing. -/
def workIter : ℕ → GameState → GameState
  | 0, s => s
  | n + 1, s => workIter n s.work_button_pressed

/-- A sequence of admission calls on one building. -/
def applyAddWorkers (b : Building) (ids : List ℕ) : Building :=
  ids.foldl (fun b i => (b.add_worker i).2) b

/-- A sell command: either Resource.sell_eu on the surge capacitor or
GameState.sell_cell_energy on the cells. -/
inductive SellOp where
  | eu (amount : ℚ)
  | cells (amount : ℚ)
deriving DecidableEq

/-- The amount a sell command asks for. -/
def SellOp.amount : SellOp → ℚ
  | .eu a => a
  | .cells a => a

/-- Run one sell command on the game state. -/
def sellStep (s : GameState) : SellOp → Bool × GameState
  | .eu a =>
    let q := s.resources.sell_eu a
    (q.1, { s with resources := q.2 })
  | .cells a => s.sell_cell_energy a

/-- All sells in the sequence succeed, each on the state the previous left. -/
def sellsAllOk : GameState → List SellOp → Bool
  | _, [] => true
  | s, op :: ops => (sellStep s op).1 && sellsAllOk (sellStep s op).2 ops

/-- Run a sequence of sell commands. -/
def runSells (s : GameState) (ops : List SellOp) : GameState :=
  ops.foldl (fun s op => (sellStep s op).2) s

/-- Fresh game state: initial resources, no cells, buildings or nanos. -/
def freshState : GameState :=
  { resources := Resource.init, cells := [], buildings := [], nanos := [],
    next_building_id := 1, next_nano_id := 1 }

/-- State with no cells, 5 EU in the surge capacitor and 50 credits: enough
energy but not enough credits for the first cell. -/
def rollbackState : GameState :=
  { freshState with resources := { Resource.init with surge_capacitor := 5, credits := 50 } }

/-- State with no cells, 20 EU in the surge capacitor and 50 credits: enough
energy but not enough credits for a tent. -/
def rollbackState2 : GameState :=
  { freshState with resources := { Resource.init with surge_capacitor := 20, credits := 50 } }

/-- State with one cell holding 5 EU and only 50 credits: enough energy but
not enough credits for the upgrade of cell 1. -/
def upgradeState : GameState :=
  { freshState with
    resources := { Resource.init with credits := 50 },
    cells := [{ Cell.mkNew 1 0 0 with stored_energy := 5 }] }

/-- State with a tent already placed at grid cell (2, 3) and ample resources. -/
def occupiedState : GameState :=
  { freshState with
    resources := { Resource.init with surge_capacitor := 100, credits := 100000 },
    buildings := [(1, { Building.mkNew .tent 2 3 with building_id := some 1 })],
    next_building_id := 2 }

/-- State with one level-1 cell overfilled to 2 EU and an empty surge capacitor. -/
def overfilledState : GameState :=
  { freshState with cells := [{ Cell.mkNew 1 0 0 with stored_energy := 2 }] }

/-- State with 10 EU in the surge capacitor and the initial sell rates. -/
def sellState : GameState :=
  { freshState with resources := { Resource.init with surge_capacitor := 10 } }

/-- One empty level-1 cell, for transfer-step witnesses. -/
def transferCells : List Cell := [Cell.mkNew 1 0 0]

/-- Nano 1 at 0 health. -/
def deadNano : Nano := { Nano.base with id := 1, health := 0 }

/-- Tent listing nano 1 as occupant. -/
def tentWithDead : Building := { Building.mkNew .tent 0 0 with workers := [1] }

/-- Nano past its maximum lifespan at full health. -/
def oldNano : Nano := { Nano.base with id := 1, age := 70, max_lifespan := 60 }

/-- Nano 7 currently inside building 1. -/
def insideNano : Nano :=
  { Nano.base with id := 7, current_building := some 1, inside_building := true }

/-- Tent occupied by nano 7. -/
def tentOccupied : Building := { Building.mkNew .tent 0 0 with workers := [7] }

/-- Empty tent with free capacity. -/
def tentFree : Building := Building.mkNew .tent 1 0

/-- BIO building at capacity (capacity 1, one worker). -/
def bioFull : Building := { Building.mkNew .bio 0 0 with workers := [3] }

/-- Unhoused nano 9, outside any building. -/
def otherNano : Nano := { Nano.base with id := 9 }

/-!
Theorems.
-/

/-- Claim C1 (code bug): at a state that can pay the energy cost of the next
cell but not its credit cost, build_cell returns failure and leaves the
credits as they were, yet the total system energy drops from 5 to 4 — the
drained EU cost is never refunded, contradicting the all-or-nothing rollback
the claim (and the source's own refund comment) demand. -/
theorem build_cell_drops_paid_energy_on_credit_failure :
    ((rollbackState.build_cell 0 0).1 = false ∧
      (rollbackState.build_cell 0 0).2.resources.credits = rollbackState.resources.credits ∧
      rollbackState.get_total_system_energy = 5 ∧
      (rollbackState.build_cell 0 0).2.get_total_system_energy = 4) ∧
    ((rollbackState2.build_building .tent 0 0).1 = false ∧
      rollbackState2.get_total_system_energy = 20 ∧
      (rollbackState2.build_building .tent 0 0).2.get_total_system_energy = 10) ∧
    ((upgradeState.upgrade_cell 1).1 = false ∧
      upgradeState.get_total_system_energy = 5 ∧
      (upgradeState.upgrade_cell 1).2.get_total_system_energy = 4) := by
  norm_num [GameState.build_cell, GameState.build_building, GameState.upgrade_cell,
    GameState.pay_dual_cost, GameState.refund_if_credits_only,
    GameState.drain_cell_energy, GameState.get_total_cell_energy,
    GameState.get_total_system_energy, Cell.get_purchase_cost, Cell.get_upgrade_cost,
    Cell.mkNew, Building.get_build_cost, Building.mkNew, drainLoop, List.find?,
    Resource.drain_eu, Resource.spend_credits, rollbackState, rollbackState2,
    upgradeState, freshState, Resource.init]

/-- Claim C6 (code bug): a nano past its maximum lifespan satisfies the
source's own Nano.is_dead predicate, yet the death sweep of Game.update —
which tests only health ≤ 0 — leaves it in the population untouched. -/
theorem age_death_not_enforced_by_update :
    oldNano.is_dead = true ∧
    (death_sweep [(1, oldNano)] []).1 = [(1, oldNano)] := by
  norm_num [Nano.is_dead, death_sweep, oldNano, Nano.base]

/-- Claim C9 (code bug): with a tent already at grid cell (2, 3), the source's
own validity predicate rejects that position, yet build_building succeeds
there and the state ends with two buildings on the same grid cell — the
placement path never consults the occupancy check. -/
theorem build_building_ignores_occupancy :
    occupiedState.is_valid_build_position 2 3 = false ∧
    (occupiedState.build_building .tent 2 3).1 = true ∧
    ((occupiedState.build_building .tent 2 3).2.buildings.map (fun p => (p.2.x, p.2.y)))
      = [(2, 3), (2, 3)] := by
  norm_num [GameState.is_valid_build_position, GameState.build_building,
    GameState.pay_dual_cost, GameState.refund_if_credits_only, GameState.drain_cell_energy,
    Building.get_build_cost, Building.mkNew, Resource.drain_eu, Resource.spend_credits,
    occupiedState, freshState, Resource.init, PLAY_AREA_WIDTH, PLAY_AREA_HEIGHT,
    WINDOW_WIDTH, WINDOW_HEIGHT, UI_PANEL_WIDTH, INFO_PANEL_WIDTH, TIME_BAR_HEIGHT,
    STATUS_BAR_HEIGHT, GRID_SIZE]

/-- Claim C4 counterexample: one level-1 cell holding 2 EU is still above its
level after a full one-second tick of update_energy_system — the bleed leaves
it at 1.1, so overflow is not corrected within one tick. -/
theorem overflow_persists_past_one_tick :
    ((overfilledState.update_energy_system 1).cells.map
        (fun c => decide (c.stored_energy ≤ (c.level : ℚ)))) = [false] ∧
    (overfilledState.update_energy_system 1).cells.map Cell.stored_energy = [11/10] := by
  norm_num [GameState.update_energy_system, GameState.bio_production_step,
    Resource.dissipate_energy, transferStep, transferMain, overflowStep,
    Cell.needs_energy, cellAddition, overfilledState, freshState, Resource.init,
    Cell.mkNew]

/-- A cell that needs energy is active and below its capacity. -/
theorem needs_energy_iff (c : Cell) :
    c.needs_energy = true ↔ c.active = true ∧ c.stored_energy < (c.level : ℚ) := by
  simp [Cell.needs_energy]

/-- Each per-cell addition of the transfer step is nonnegative. -/
theorem cellAddition_nonneg (share : ℚ) (h : 0 ≤ share) (c : Cell) :
    0 ≤ cellAddition share c := by
  unfold cellAddition
  split
  · rename_i hn
    rcases (needs_energy_iff c).mp hn with ⟨-, hlt⟩
    exact le_min h (by linarith)
  · exact le_refl 0

/-- Each per-cell addition is at most the even share. -/
theorem cellAddition_le_share (share : ℚ) (h : 0 ≤ share) (c : Cell) :
    cellAddition share c ≤ share := by
  unfold cellAddition
  split
  · exact min_le_left _ _
  · exact h

/-- The total of the per-cell additions is bounded by the number of cells
needing energy times the even share. -/
theorem sum_cellAddition_le (share : ℚ) (h : 0 ≤ share) (cells : List Cell) :
    (cells.map (cellAddition share)).sum
      ≤ ((cells.filter Cell.needs_energy).length : ℚ) * share := by
  induction cells with
  | nil => simp
  | cons c cs ih =>
    by_cases hn : c.needs_energy = true
    · simp only [List.map_cons, List.sum_cons, List.filter_cons, hn, if_pos,
        List.length_cons]
      push_cast
      have h1 := cellAddition_le_share share h c
      linarith
    · have hz : cellAddition share c = 0 := by
        unfold cellAddition
        exact if_neg hn
      simp only [List.map_cons, List.sum_cons, hz, zero_add, List.filter_cons]
      rw [if_neg (by simpa using hn)]
      exact ih

/-- Rewriting the stored energies of the transferred cell list as a sum. -/
theorem sum_map_stored_add (g : Cell → ℚ) (cells : List Cell) :
    ((cells.map (fun c => { c with stored_energy := c.stored_energy + g c })).map
        Cell.stored_energy).sum
      = (cells.map Cell.stored_energy).sum + (cells.map g).sum := by
  induction cells with
  | nil => simp
  | cons c cs ih =>
    simp only [List.map_cons, List.sum_cons, ih]
    ring

/-- transferMain never changes the number of cells. -/
theorem transferMain_length (surge : ℚ) (cells : List Cell) (amt : ℚ) :
    (transferMain surge cells amt).2.length = cells.length := by
  unfold transferMain
  split
  · simp
  · rfl

/-- transferMain conserves total energy: the surge capacitor drops by exactly
the total added to the cells. -/
theorem transferMain_conservation (surge : ℚ) (cells : List Cell) (amt : ℚ) :
    (transferMain surge cells amt).1
        + ((transferMain surge cells amt).2.map Cell.stored_energy).sum
      = surge + (cells.map Cell.stored_energy).sum := by
  unfold transferMain
  split
  · simp only [sum_map_stored_add]
    ring
  · rfl

/-- transferMain never adds energy to the surge capacitor. -/
theorem transferMain_moved_nonneg (surge : ℚ) (cells : List Cell) (amt : ℚ)
    (h : 0 ≤ amt) : (transferMain surge cells amt).1 ≤ surge := by
  unfold transferMain
  split
  · rename_i hk
    have hshare : 0 ≤ amt / ((cells.filter Cell.needs_energy).length : ℚ) :=
      div_nonneg h (by positivity)
    have : 0 ≤ (cells.map (cellAddition
        (amt / ((cells.filter Cell.needs_energy).length : ℚ)))).sum := by
      apply List.sum_nonneg
      intro x hx
      rcases List.mem_map.mp hx with ⟨c, -, rfl⟩
      exact cellAddition_nonneg _ hshare c
    simpa using by linarith
  · exact le_refl surge

/-- transferMain moves at most the transferable amount out of the surge
capacitor. -/
theorem transferMain_moved_le (surge : ℚ) (cells : List Cell) (amt : ℚ)
    (h : 0 ≤ amt) : surge - (transferMain surge cells amt).1 ≤ amt := by
  unfold transferMain
  split
  · rename_i hk
    have hkq : ((cells.filter Cell.needs_energy).length : ℚ) ≠ 0 :=
      Nat.cast_ne_zero.mpr hk.ne'
    have hshare : 0 ≤ amt / ((cells.filter Cell.needs_energy).length : ℚ) :=
      div_nonneg h (by positivity)
    have hle := sum_cellAddition_le _ hshare cells
    rw [mul_div_cancel₀ amt hkq] at hle
    simpa using by linarith
  · simpa using h

/-- In the even-split branch, a cell needing energy receives exactly the
minimum of the even share and its remaining space. -/
theorem transferMain_getElem_needy (surge : ℚ) (cells : List Cell) (amt : ℚ)
    (i : ℕ) (c : Cell) (hc : cells[i]? = some c) (hn : c.needs_energy = true)
    (hk : 0 < (cells.filter Cell.needs_energy).length) :
    (transferMain surge cells amt).2[i]?
      = some { c with stored_energy :=
          c.stored_energy + min (amt / ((cells.filter Cell.needs_energy).length : ℚ)) ((c.level : ℚ) - c.stored_energy) } := by
  unfold transferMain
  rw [if_pos hk]
  simp only [List.getElem?_map, hc]
  simp [cellAddition, hn]

/-- A cell that does not need energy is untouched by transferMain. -/
theorem transferMain_getElem_not_needy (surge : ℚ) (cells : List Cell) (amt : ℚ)
    (i : ℕ) (c : Cell) (hc : cells[i]? = some c) (hn : c.needs_energy = false) :
    (transferMain surge cells amt).2[i]? = some c := by
  unfold transferMain
  split
  · simp only [List.getElem?_map, hc]
    simp [cellAddition, hn]
  · exact hc

/-- Under the tick conditions of the claim, the transfer step is exactly
transferMain at the rate-limited amount. -/
theorem transferStep_eq_main (surge : ℚ) (cells : List Cell) (dt : ℚ)
    (hs : 0 < surge) (hc : 0 < cells.length) (hdt : 0 < dt) :
    transferStep surge cells dt = transferMain surge cells (min surge ((1/2) * dt)) := by
  unfold transferStep
  rw [if_pos ⟨hs, hc⟩, if_pos (lt_min hs (by linarith))]

/-- A cell that does not need energy is untouched by the whole transfer step,
whatever branch it takes. -/
theorem transferStep_getElem_not_needy (surge : ℚ) (cells : List Cell) (dt : ℚ)
    (i : ℕ) (c : Cell) (hc : cells[i]? = some c) (hn : c.needs_energy = false) :
    (transferStep surge cells dt).2[i]? = some c := by
  unfold transferStep
  dsimp only
  split
  · split
    · exact transferMain_getElem_not_needy _ _ _ _ _ hc hn
    · exact hc
  · exact hc

/-- A needy cell in the bank makes the needy filter nonempty. -/
theorem needy_filter_pos (cells : List Cell) (i : ℕ) (c : Cell)
    (hc : cells[i]? = some c) (hn : c.needs_energy = true) :
    0 < (cells.filter Cell.needs_energy).length := by
  have hmem : c ∈ cells := by
    obtain ⟨hlt, he⟩ := List.getElem?_eq_some_iff.mp hc
    exact he ▸ List.getElem_mem hlt
  exact List.length_pos.mpr (List.ne_nil_of_mem (List.mem_filter.mpr ⟨hmem, hn⟩))

/-- After transferMain a cell never exceeds the larger of its previous store
and its capacity. -/
theorem transferMain_getElem_le (surge : ℚ) (cells : List Cell) (amt : ℚ)
    (i : ℕ) (c c' : Cell)
    (hc : cells[i]? = some c) (hc' : (transferMain surge cells amt).2[i]? = some c') :
    c'.stored_energy ≤ max c.stored_energy (c.level : ℚ) := by
  by_cases hn : c.needs_energy = true
  · have hk := needy_filter_pos cells i c hc hn
    rw [transferMain_getElem_needy surge cells amt i c hc hn hk] at hc'
    injection hc' with hc'
    subst hc'
    have h1 : min (amt / ((cells.filter Cell.needs_energy).length : ℚ))
        ((c.level : ℚ) - c.stored_energy) ≤ (c.level : ℚ) - c.stored_energy :=
      min_le_right _ _
    have h2 : (c.level : ℚ) ≤ max c.stored_energy (c.level : ℚ) := le_max_right _ _
    simp only
    linarith
  · have hn' : c.needs_energy = false := by simpa using hn
    rw [transferMain_getElem_not_needy surge cells amt i c hc hn'] at hc'
    injection hc' with hc'
    subst hc'
    exact le_max_left _ _

/-- Claim C3: for every tick with at least one cell and a positive surge
capacitor, the transfer step keeps the cell count, conserves total energy
(the surge capacitor drops by exactly the total added to cells), removes at
most 0.5·dt from the surge capacitor and never adds to it, gives every cell
below capacity exactly the minimum of the even share and its remaining space,
leaves every other cell untouched, and never pushes a cell past the larger of
its previous store and its capacity. -/
theorem transfer_step_rate_limited_even_split (surge : ℚ) (cells : List Cell)
    (dt : ℚ) (hs : 0 < surge) (hc : 0 < cells.length) (hdt : 0 < dt) :
    ((transferStep surge cells dt).2.length = cells.length) ∧
    ((transferStep surge cells dt).1
        + ((transferStep surge cells dt).2.map Cell.stored_energy).sum
      = surge + (cells.map Cell.stored_energy).sum) ∧
    ((transferStep surge cells dt).1 ≤ surge) ∧
    (surge - (transferStep surge cells dt).1 ≤ (1/2) * dt) ∧
    (∀ i : ℕ, ∀ c : Cell, cells[i]? = some c → c.needs_energy = true →
      (transferStep surge cells dt).2[i]?
        = some { c with stored_energy :=
            c.stored_energy + min ((min surge ((1/2) * dt)) / ((cells.filter Cell.needs_energy).length : ℚ)) ((c.level : ℚ) - c.stored_energy) }) ∧
    (∀ i : ℕ, ∀ c : Cell, cells[i]? = some c → c.needs_energy = false →
      (transferStep surge cells dt).2[i]? = some c) ∧
    (∀ i : ℕ, ∀ c c' : Cell, cells[i]? = some c →
      (transferStep surge cells dt).2[i]? = some c' →
      c'.stored_energy ≤ max c.stored_energy (c.level : ℚ)) := by
  have hE := transferStep_eq_main surge cells dt hs hc hdt
  have hamt : 0 ≤ min surge ((1/2) * dt) := le_of_lt (lt_min hs (by linarith))
  rw [hE]
  refine ⟨transferMain_length _ _ _, transferMain_conservation _ _ _,
    transferMain_moved_nonneg _ _ _ hamt,
    le_trans (transferMain_moved_le _ _ _ hamt) (min_le_right _ _), ?_, ?_, ?_⟩
  · intro i c hci hn
    exact transferMain_getElem_needy _ _ _ _ _ hci hn (needy_filter_pos cells i c hci hn)
  · intro i c hci hn
    exact transferMain_getElem_not_needy _ _ _ _ _ hci hn
  · intro i c c' hci hci'
    exact transferMain_getElem_le _ _ _ _ _ _ hci hci'

/-- Witness for claim C3 at a concrete tick: one empty level-1 cell, 1 EU of
surge, dt = 1 second; energy is conserved by the transfer. -/
theorem transfer_step_rate_limited_even_split_witness :
    (transferStep 1 transferCells 1).1
        + ((transferStep 1 transferCells 1).2.map Cell.stored_energy).sum
      = 1 + (transferCells.map Cell.stored_energy).sum :=
  (transfer_step_rate_limited_even_split 1 transferCells 1 (by norm_num)
    (by norm_num [transferCells]) (by norm_num)).2.1

/-- distribute_energy_to_cells only moves resources, never the cell list. -/
theorem distribute_cells (s : GameState) (a : ℚ) :
    (s.distribute_energy_to_cells a).cells = s.cells := by
  unfold GameState.distribute_energy_to_cells
  dsimp only
  repeat' split
  all_goals rfl

/-- Folding a cell-preserving step over any list preserves the cell list. -/
theorem foldl_cells_invariant {α : Type} (f : GameState → α → GameState)
    (hf : ∀ s a, (f s a).cells = s.cells) :
    ∀ (l : List α) (s : GameState), (l.foldl f s).cells = s.cells := by
  intro l
  induction l with
  | nil => intro s; rfl
  | cons a l ih =>
    intro s
    rw [List.foldl_cons, ih, hf]

/-- The BIO production loop only injects into the surge capacitor; the cell
list is unchanged. -/
theorem bio_production_step_cells (s : GameState) (dt : ℚ) :
    (s.bio_production_step dt).cells = s.cells := by
  unfold GameState.bio_production_step
  apply foldl_cells_invariant
  intro st p
  split
  · apply foldl_cells_invariant
    intro st2 nid
    dsimp only
    repeat' split
    all_goals first | rfl | exact distribute_cells _ _
  · rfl

/-- A cell above its capacity is not in the needy filter of the transfer step. -/
theorem over_capacity_not_needy (c : Cell) (hover : (c.level : ℚ) < c.stored_energy) :
    c.needs_energy = false := by
  unfold Cell.needs_energy
  rw [decide_eq_false (not_lt.mpr (le_of_lt hover)), Bool.and_false]

/-- Claim C4 as amended: a cell over its capacity is untouched by transfer
and production, and the overflow correction of one tick sets its store to
max(level, store − 0.9·dt·(store − level)): the store never drops below the
level and never rises, but it reaches the level within that one tick only
when 0.9·dt ≥ 1 — the excess decays geometrically across ticks instead of
vanishing within one. -/
theorem overflow_bleed_formula (s : GameState) (dt : ℚ) (i : ℕ) (c : Cell)
    (hdt : 0 ≤ dt) (hc : s.cells[i]? = some c)
    (hover : (c.level : ℚ) < c.stored_energy) :
    ((s.update_energy_system dt).cells[i]?
      = some { c with stored_energy := max ((c.level : ℚ)) (c.stored_energy - (c.stored_energy - (c.level : ℚ)) * (9/10) * dt) }) ∧
    ((c.level : ℚ)
      ≤ max ((c.level : ℚ)) (c.stored_energy - (c.stored_energy - (c.level : ℚ)) * (9/10) * dt)) ∧
    (max ((c.level : ℚ)) (c.stored_energy - (c.stored_energy - (c.level : ℚ)) * (9/10) * dt)
      ≤ c.stored_energy) := by
  have hn := over_capacity_not_needy c hover
  refine ⟨?_, le_max_left _ _, ?_⟩
  · unfold GameState.update_energy_system
    dsimp only
    rw [bio_production_step_cells]
    rw [List.getElem?_map, transferStep_getElem_not_needy _ _ _ _ _ hc hn]
    unfold overflowStep
    rw [Option.map_some', if_pos hover]
  · have hx : 0 ≤ (c.stored_energy - (c.level : ℚ)) * (9/10) * dt :=
      mul_nonneg (mul_nonneg (by linarith) (by norm_num)) hdt
    exact max_le (le_of_lt hover) (by linarith)

/-- Witness for the amended claim C4: the overfilled level-1 cell at 2 EU,
after a one-second tick, sits at max(1, 2 − 0.9) = 1.1. -/
theorem overflow_bleed_formula_witness :
    ((overfilledState.update_energy_system 1).cells[0]?
      = some { { Cell.mkNew 1 0 0 with stored_energy := 2 } with stored_energy := max ((((Cell.mkNew 1 0 0).level : ℕ) : ℚ)) (2 - (2 - (((Cell.mkNew 1 0 0).level : ℕ) : ℚ)) * (9/10) * 1) }) :=
  (overflow_bleed_formula overfilledState 1 0 _ (by norm_num)
    (by norm_num [overfilledState, freshState, Cell.mkNew]) (by norm_num [Cell.mkNew])).1

/-- The WORK button never changes the cell bank. -/
theorem work_button_pressed_cells (s : GameState) :
    s.work_button_pressed.cells = s.cells := by
  unfold GameState.work_button_pressed
  dsimp only
  repeat' split
  all_goals rfl

/-- One WORK press with zero cells keeps the surge capacitor at or below the
1.5 ceiling. -/
theorem work_button_pressed_surge_le (s : GameState) (hc : s.cells = [])
    (h : s.resources.surge_capacitor ≤ 3/2) :
    s.work_button_pressed.resources.surge_capacitor ≤ 3/2 := by
  unfold GameState.work_button_pressed
  rw [hc]
  dsimp only
  rw [if_neg (by norm_num)]
  split
  · split
    · rename_i hlt hpos
      simp only [Resource.add_eu]
      have := min_le_right s.resources.work_power (3/2 - s.resources.surge_capacitor)
      linarith
    · exact h
  · exact h

/-- Claim C7: with zero cells the surge capacitor never exceeds the 1.5
ceiling under any number of WORK presses, and in the concrete scenario
(fresh state: 1000 credits, work_power 0.1, zero cells) 20 presses with no
time passing leave it at exactly 1.5, not 2.0. -/
theorem manual_work_never_exceeds_ceiling :
    (∀ (s : GameState) (n : ℕ), s.cells = [] →
      s.resources.surge_capacitor ≤ 3/2 →
      (workIter n s).resources.surge_capacitor ≤ 3/2) ∧
    (workIter 20 freshState).resources.surge_capacitor = 3/2 ∧
    freshState.resources.credits = 1000 ∧
    freshState.resources.work_power = 1/10 ∧
    freshState.cells = [] := by
  refine ⟨?_, ?_, rfl, rfl, rfl⟩
  · intro s n
    induction n generalizing s with
    | zero => exact fun _ h => h
    | succ n ih =>
      intro hc h
      exact ih s.work_button_pressed (by rw [work_button_pressed_cells, hc])
        (work_button_pressed_surge_le s hc h)
  · norm_num [workIter, GameState.work_button_pressed, Resource.add_eu,
      freshState, Resource.init]

/-- Witness for claim C7: three presses from the fresh state stay at or below
the ceiling. -/
theorem manual_work_never_exceeds_ceiling_witness :
    (workIter 3 freshState).resources.surge_capacitor ≤ 3/2 :=
  manual_work_never_exceeds_ceiling.1 freshState 3 rfl (by norm_num [freshState, Resource.init])

/-- One admission call preserves the capacity, the occupancy bound and the
absence of duplicate occupants. -/
theorem add_worker_preserves (b : Building) (i : ℕ)
    (h1 : b.workers.length ≤ b.capacity) (h2 : b.workers.Nodup) :
    (b.add_worker i).2.capacity = b.capacity ∧
    (b.add_worker i).2.workers.length ≤ b.capacity ∧
    (b.add_worker i).2.workers.Nodup := by
  unfold Building.add_worker
  split
  · rename_i hcond
    obtain ⟨hacc, hnot⟩ := hcond
    have hlt : b.workers.length < b.capacity := by
      unfold Building.can_accept_worker at hacc
      exact of_decide_eq_true hacc
    refine ⟨rfl, ?_, ?_⟩
    · simp only [List.length_append, List.length_cons, List.length_nil]
      omega
    · simp [List.nodup_append, h2, hnot]
  · exact ⟨rfl, h1, h2⟩

/-- Claim C8: for any sequence of admission calls on a building whose
occupant list respects its capacity and has no duplicate ids, the list still
respects the type-fixed capacity and still has no duplicates afterwards. -/
theorem building_admission_never_over_capacity (b : Building) (ids : List ℕ)
    (h1 : b.workers.length ≤ b.capacity) (h2 : b.workers.Nodup) :
    (applyAddWorkers b ids).capacity = b.capacity ∧
    (applyAddWorkers b ids).workers.length ≤ b.capacity ∧
    (applyAddWorkers b ids).workers.Nodup := by
  induction ids generalizing b with
  | nil => exact ⟨rfl, h1, h2⟩
  | cons i ids ih =>
    obtain ⟨hc0, hl0, hn0⟩ := add_worker_preserves b i h1 h2
    have hstep : applyAddWorkers b (i :: ids) = applyAddWorkers (b.add_worker i).2 ids :=
      rfl
    rw [hstep]
    obtain ⟨hc1, hl1, hn1⟩ := ih (b.add_worker i).2 (by rw [hc0]; exact hl0) hn0
    rw [hc0] at hc1 hl1
    exact ⟨hc1, hl1, hn1⟩

/-- Witness for claim C8: four admission calls (including a duplicate id) on
an empty tent of capacity 2 keep the occupant list within capacity and
duplicate-free. -/
theorem building_admission_never_over_capacity_witness :
    (applyAddWorkers tentFree [1, 2, 3, 2]).capacity = tentFree.capacity ∧
    (applyAddWorkers tentFree [1, 2, 3, 2]).workers.length ≤ tentFree.capacity ∧
    (applyAddWorkers tentFree [1, 2, 3, 2]).workers.Nodup :=
  building_admission_never_over_capacity tentFree [1, 2, 3, 2]
    (by norm_num [tentFree, Building.mkNew]) (by simp [tentFree, Building.mkNew])

/-- An id absent from a worker list stays absent through any sequence of
removals. -/
theorem erase_foldl_not_mem (ds : List ℕ) (ws : List ℕ) (i : ℕ) (h : i ∉ ws) :
    i ∉ ds.foldl (fun l j => l.erase j) ws := by
  induction ds generalizing ws with
  | nil => simpa using h
  | cons d ds ih =>
    rw [List.foldl_cons]
    exact ih (ws.erase d) (fun hm => h (List.erase_subset d ws hm))

/-- Removing every id of a hit list from a duplicate-free worker list leaves
none of the hit ids behind. -/
theorem erase_foldl_removes (ds : List ℕ) (ws : List ℕ) (i : ℕ)
    (hnd : ws.Nodup) (h : i ∈ ds) :
    i ∉ ds.foldl (fun l j => l.erase j) ws := by
  induction ds generalizing ws with
  | nil => cases h
  | cons d ds ih =>
    rw [List.foldl_cons]
    rcases eq_or_ne i d with rfl | hne
    · exact erase_foldl_not_mem ds (ws.erase i) i
        (fun hm => ((hnd.mem_erase_iff).mp hm).1 rfl)
    · rcases List.mem_cons.mp h with h' | h'
      · exact absurd h' hne
      · exact ih (ws.erase d) (hnd.erase d) h'

/-- Claim C5: an agent whose health is ≤ 0 at the death check is, right after
the sweep, absent from the nano collection and from every building's
occupant list (assuming the occupant lists are duplicate-free, which
admission guarantees). -/
theorem dead_agent_purged_same_tick (nanos : List (ℕ × Nano))
    (buildings : List (ℕ × Building)) (nid : ℕ) (n : Nano)
    (hmem : (nid, n) ∈ nanos) (hdead : n.health ≤ 0)
    (hnd : ∀ p ∈ buildings, p.2.workers.Nodup) :
    (∀ p ∈ (death_sweep nanos buildings).1, p.1 ≠ nid) ∧
    (∀ p ∈ (death_sweep nanos buildings).2, nid ∉ p.2.workers) := by
  have hdid : nid ∈ (nanos.filter (fun p => decide (p.2.health ≤ 0))).map Prod.fst :=
    List.mem_map.mpr ⟨(nid, n), List.mem_filter.mpr ⟨hmem, by simpa using hdead⟩, rfl⟩
  constructor
  · intro p hp heq
    unfold death_sweep at hp
    dsimp only at hp
    have hfp := List.of_mem_filter hp
    rw [decide_eq_true_eq] at hfp
    exact hfp (heq ▸ hdid)
  · intro p hp
    unfold death_sweep at hp
    dsimp only at hp
    rcases List.mem_map.mp hp with ⟨q, hq, rfl⟩
    exact erase_foldl_removes _ _ _ (hnd q hq) hdid

/-- Witness for claim C5: nano 1 at 0 health, listed in a tent's occupant
list, is gone from both after the sweep. -/
theorem dead_agent_purged_same_tick_witness :
    (∀ p ∈ (death_sweep [(1, deadNano)] [(5, tentWithDead)]).1, p.1 ≠ 1) ∧
    (∀ p ∈ (death_sweep [(1, deadNano)] [(5, tentWithDead)]).2, 1 ∉ p.2.workers) :=
  dead_agent_purged_same_tick [(1, deadNano)] [(5, tentWithDead)] 1 deadNano
    (by simp) (by norm_num [deadNano, Nano.base])
    (by
      intro p hp
      simp only [List.mem_singleton] at hp
      subst hp
      simp [tentWithDead, Building.mkNew])

/-- Draining cell energy never touches the resources record. -/
theorem drain_cell_energy_resources (s : GameState) (a : ℚ) :
    (s.drain_cell_energy a).2.resources = s.resources := by
  unfold GameState.drain_cell_energy
  dsimp only
  repeat' split
  all_goals rfl

/-- A successful sell (either kind) credits amount × the rate in effect
before the decay, decays the rate to max(rate × 0.9, floor), and keeps the
floor. -/
theorem sellStep_ok_fields (s : GameState) (op : SellOp)
    (hok : (sellStep s op).1 = true) :
    (sellStep s op).2.resources.credits
        = s.resources.credits + op.amount * s.resources.sell_rate ∧
    (sellStep s op).2.resources.sell_rate
        = max (s.resources.sell_rate * (9/10)) s.resources.sell_floor ∧
    (sellStep s op).2.resources.sell_floor = s.resources.sell_floor := by
  cases op with
  | eu a =>
    unfold sellStep Resource.sell_eu at hok ⊢
    dsimp only at hok ⊢
    by_cases h : a ≤ s.resources.surge_capacitor
    · simp [SellOp.amount, if_pos h]
    · rw [if_neg h] at hok
      exact absurd hok (by simp)
  | cells a =>
    unfold sellStep GameState.sell_cell_energy at hok ⊢
    dsimp only at hok ⊢
    by_cases h : (s.drain_cell_energy a).1 = true
    · rw [if_pos h]
      simp [SellOp.amount, drain_cell_energy_resources]
    · rw [if_neg h] at hok
      exact absurd hok (by simp)

/-- Claim C2: every successful sell pays amount × the pre-decay rate, and any
sequence of N consecutive successful sells turns the rate R0 into
max(R0 × 0.9^N, floor) (given the data-model invariants 0 ≤ floor ≤ rate). -/
theorem selling_pays_predecay_rate :
    (∀ (s : GameState) (op : SellOp), (sellStep s op).1 = true →
      (sellStep s op).2.resources.credits
          = s.resources.credits + op.amount * s.resources.sell_rate ∧
      (sellStep s op).2.resources.sell_rate
          = max (s.resources.sell_rate * (9/10)) s.resources.sell_floor) ∧
    (∀ (s : GameState) (ops : List SellOp), sellsAllOk s ops = true →
      0 ≤ s.resources.sell_floor →
      s.resources.sell_floor ≤ s.resources.sell_rate →
      (runSells s ops).resources.sell_rate
          = max (s.resources.sell_rate * (9/10) ^ ops.length) s.resources.sell_floor) := by
  constructor
  · intro s op hok
    exact ⟨(sellStep_ok_fields s op hok).1, (sellStep_ok_fields s op hok).2.1⟩
  · intro s ops
    induction ops generalizing s with
    | nil =>
      intro _ _ hfr
      simp [runSells, max_eq_left hfr]
    | cons op ops ih =>
      intro hok h0 hfr
      rw [sellsAllOk, Bool.and_eq_true] at hok
      obtain ⟨h1, h2⟩ := hok
      obtain ⟨-, hrate, hfloor⟩ := sellStep_ok_fields s op h1
      have hrun : runSells s (op :: ops) = runSells (sellStep s op).2 ops := rfl
      rw [hrun]
      have h0' : 0 ≤ (sellStep s op).2.resources.sell_floor := by
        rw [hfloor]; exact h0
      have hfr' : (sellStep s op).2.resources.sell_floor
          ≤ (sellStep s op).2.resources.sell_rate := by
        rw [hfloor, hrate]; exact le_max_right _ _
      rw [ih (sellStep s op).2 h2 h0' hfr', hrate, hfloor]
      have hq0 : (0 : ℚ) ≤ (9/10) ^ ops.length := by positivity
      have hql : ((9 : ℚ)/10) ^ ops.length ≤ 1 := pow_le_one₀ (by norm_num) (by norm_num)
      have h3 : s.resources.sell_floor * (9/10) ^ ops.length ≤ s.resources.sell_floor := by
        calc s.resources.sell_floor * (9/10) ^ ops.length
            ≤ s.resources.sell_floor * 1 := mul_le_mul_of_nonneg_left hql h0
          _ = s.resources.sell_floor := mul_one _
      rw [max_mul_of_nonneg _ _ hq0, max_assoc, max_eq_right h3]
      simp only [List.length_cons]
      congr 1
      rw [pow_succ]
      ring

/-- Witness for claim C2: selling 1 EU twice from 10 EU at rate 1000 and
floor 10. -/
theorem selling_pays_predecay_rate_witness :
    ((sellStep sellState (SellOp.eu 1)).2.resources.credits
        = sellState.resources.credits
            + (SellOp.eu 1).amount * sellState.resources.sell_rate ∧
      (sellStep sellState (SellOp.eu 1)).2.resources.sell_rate
        = max (sellState.resources.sell_rate * (9/10)) sellState.resources.sell_floor) ∧
    (runSells sellState [SellOp.eu 1, SellOp.eu 1]).resources.sell_rate
        = max (sellState.resources.sell_rate
            * (9/10) ^ ([SellOp.eu 1, SellOp.eu 1] : List SellOp).length)
          sellState.resources.sell_floor :=
  ⟨selling_pays_predecay_rate.1 sellState (SellOp.eu 1)
      (by norm_num [sellStep, Resource.sell_eu, sellState, freshState, Resource.init]),
   selling_pays_predecay_rate.2 sellState [SellOp.eu 1, SellOp.eu 1]
      (by norm_num [sellsAllOk, sellStep, Resource.sell_eu, sellState, freshState,
        Resource.init])
      (by norm_num [sellState, freshState, Resource.init])
      (by norm_num [sellState, freshState, Resource.init])⟩

/-- Claim C10 counterexample: nano 7 already occupies building 1, yet
enter_building on building 2 succeeds and leaves nano 7 listed in both
occupant lists — the operation never checks the agent's current occupancy. -/
theorem enter_building_ignores_current_occupancy :
    insideNano.inside_building = true ∧
    insideNano.current_building = some 1 ∧
    (insideNano.enter_building 2 [(1, tentOccupied), (2, tentFree)]).1 = true ∧
    ((insideNano.enter_building 2 [(1, tentOccupied), (2, tentFree)]).2.2.map
        (fun p => (p.1, p.2.workers))) = [(1, [7]), (2, [7])] := by
  norm_num [Nano.enter_building, Building.add_worker, Building.can_accept_worker,
    insideNano, tentOccupied, tentFree, Building.mkNew, Nano.base,
    BuildingType.get_capacity]

/-- Two entries of an association list with duplicate-free keys and the same
key are the same entry. -/
theorem assoc_unique_of_nodup_keys {β : Type} (l : List (ℕ × β))
    (h : (l.map Prod.fst).Nodup) {p q : ℕ × β}
    (hp : p ∈ l) (hq : q ∈ l) (hfst : p.1 = q.1) : p = q := by
  induction l with
  | nil => cases hp
  | cons a l ih =>
    simp only [List.map_cons, List.nodup_cons] at h
    rcases List.mem_cons.mp hp with rfl | hp' <;> rcases List.mem_cons.mp hq with rfl | hq'
    · rfl
    · exact absurd (hfst ▸ List.mem_map_of_mem Prod.fst hq') h.1
    · exact absurd (hfst ▸ List.mem_map_of_mem Prod.fst hp') h.1
    · exact ih h.2 hp' hq'

/-- Claim C10 as amended: admission does fail, with no state change, when the
building is already at capacity — both at the Building.add_worker level and
through Nano.enter_building (for a buildings dict with unique ids); but the
operation itself performs no check that the agent is free, so occupancy of
another building does not make it fail (see the counterexample). -/
theorem admission_fails_when_full (n : Nano) (bid : ℕ) (b : Building)
    (bs : List (ℕ × Building))
    (hfind : bs.find? (fun p => p.1 == bid) = some (bid, b))
    (hkeys : (bs.map Prod.fst).Nodup)
    (hfull : b.capacity ≤ b.workers.length) :
    ((b.add_worker n.id).1 = false ∧ (b.add_worker n.id).2 = b) ∧
    (n.enter_building bid bs).1 = false ∧
    (n.enter_building bid bs).2.1 = n ∧
    (n.enter_building bid bs).2.2 = bs := by
  have hadd : b.add_worker n.id = (false, b) := by
    unfold Building.add_worker
    rw [if_neg]
    intro hcond
    have := of_decide_eq_true (hcond.1 : b.can_accept_worker = true)
    omega
  have hmap : bs.map (fun p => if p.1 == bid then (p.1, b) else p) = bs := by
    have hcong : ∀ p ∈ bs, (if p.1 == bid then (p.1, b) else p) = p := by
      intro p hp
      by_cases hpb : p.1 = bid
      · have hpeq : p = (bid, b) :=
          assoc_unique_of_nodup_keys bs hkeys hp
            (List.mem_of_find?_eq_some hfind) hpb
        rw [if_pos (by simp [hpb]), hpeq]
      · rw [if_neg (by simp [hpb])]
    rw [List.map_congr_left hcong]
    simp
  have hmain : n.enter_building bid bs = (false, n, bs) := by
    unfold Nano.enter_building
    rw [hfind]
    dsimp only
    rw [hadd]
    dsimp only
    rw [if_neg (by simp), hmap]
  exact ⟨by rw [hadd]; exact ⟨rfl, rfl⟩, by rw [hmain], by rw [hmain], by rw [hmain]⟩

/-- Witness for the amended claim C10: entering the full BIO building fails
and changes nothing. -/
theorem admission_fails_when_full_witness :
    ((bioFull.add_worker otherNano.id).1 = false ∧
      (bioFull.add_worker otherNano.id).2 = bioFull) ∧
    (otherNano.enter_building 4 [(4, bioFull)]).1 = false ∧
    (otherNano.enter_building 4 [(4, bioFull)]).2.1 = otherNano ∧
    (otherNano.enter_building 4 [(4, bioFull)]).2.2 = [(4, bioFull)] :=
  admission_fails_when_full otherNano 4 bioFull [(4, bioFull)]
    (by norm_num [List.find?]) (by simp)
    (by norm_num [bioFull, Building.mkNew, BuildingType.get_capacity])

end NB
